import Mathlib

/-!
Verification of the results-consolidation and regression-verification core of
the Financial-SDG-GARCH repository, as a shallow embedding in Lean 4.

Embedded source files:
  * `tools/_util/path_parsing.py`  — metadata inference from file paths;
  * `tools/collect_results.py`     — record normalization and aggregation;
  * `tools/check_regression.py`    — baseline comparison.

Modelling conventions, stated once here:
  * Python scalar cell values are modelled by `PyVal` (a string, an exact
    rational standing for a float, the float NaN, or Python `None`).
    Floating-point arithmetic is modelled by exact rational arithmetic;
    float infinities and the textual `repr` of floats are abstracted
    (`pyStr` renders a rational exactly).
  * Python functions that can raise are embedded in `Except`; a Python
    `try/except` block becomes a `match` on the `Except` value.
  * Filesystem access (reading CSV headers, JSON documents, config files,
    hashing) is abstracted into an oracle structure `FS` supplied as an
    argument; the embedded functions are quantified over every oracle.
-/

/-- Python scalar values as they occur in pandas cells and metadata fields. -/
inductive PyVal where
  | str (s : String)
  | num (q : ℚ)
  | nan
  | none
deriving DecidableEq, Repr

/-- Python truthiness for the scalars we model: empty string and `0` and
`None` are falsy; NaN is truthy. -/
def pyTruthy : PyVal → Bool
  | .str s => s ≠ ""
  | .num q => q ≠ 0
  | .nan => true
  | .none => false

/-- Python `a or b`: returns `a` when truthy, else `b`. -/
def pyOr (a b : PyVal) : PyVal := if pyTruthy a then a else b

/-- `pd.isna` on the scalars we model: NaN and `None` are missing. -/
def pyIsNa : PyVal → Bool
  | .nan => true
  | .none => true
  | _ => false

/-- `pd.notna`. -/
def pyNotNa (v : PyVal) : Bool := !pyIsNa v

/-- Python `str()` of a cell.  The decimal `repr` of a float is abstracted
to the exact rendering of the rational; both are injective on the values
they render, which is all the comparisons below depend on. -/
def pyStr : PyVal → String
  | .str s => s
  | .num q => toString q
  | .nan => "nan"
  | .none => "None"

/-- An `Option String` metadata field seen as a Python value
(`None` or a `str`). -/
def optToPy : Option String → PyVal
  | Option.none => .none
  | Option.some s => .str s

/-! ### String utilities mirroring the Python string operations used. -/

/-- Python `str.lower` (the paths involved are ASCII). -/
def strLower (s : String) : String := ⟨s.data.map Char.toLower⟩

/-- Python's whitespace set for `str.strip`. -/
def pyIsSpace (c : Char) : Bool :=
  c = ' ' || c = '\t' || c = '\n' || c = '\r' || c = '\x0b' || c = '\x0c'

/-- Python `str.strip()`. -/
def pyStrip (s : String) : String :=
  ⟨((s.data.dropWhile pyIsSpace).reverse.dropWhile pyIsSpace).reverse⟩

/-- Python `s.endswith(t)` (and the `str.endswith` used by `os.path`). -/
def pyEndsWith (s t : String) : Bool := t.data.reverse.isPrefixOf s.data.reverse

/-- Python `needle in hay` (contiguous substring containment). -/
def listSub (needle : List Char) : List Char → Bool
  | [] => needle.isPrefixOf []
  | c :: cs => needle.isPrefixOf (c :: cs) || listSub needle cs

/-- Python `needle in hay` on strings. -/
def strContainsSub (hay needle : String) : Bool := listSub needle.data hay.data

theorem isPrefixOf_iff_append {a b : List Char} :
    a.isPrefixOf b = true ↔ ∃ t, b = a ++ t := by
  induction a generalizing b with
  | nil => simp [List.isPrefixOf]
  | cons x xs ih =>
    cases b with
    | nil => simp [List.isPrefixOf]
    | cons y ys =>
      simp only [List.isPrefixOf, List.cons_append, Bool.and_eq_true, beq_iff_eq, ih]
      constructor
      · rintro ⟨rfl, t, rfl⟩; exact ⟨t, rfl⟩
      · rintro ⟨t, h⟩; cases h; exact ⟨rfl, t, rfl⟩

theorem listSub_iff_append {n h : List Char} :
    listSub n h = true ↔ ∃ pre post, h = pre ++ n ++ post := by
  induction h with
  | nil =>
    simp only [listSub, isPrefixOf_iff_append]
    constructor
    · rintro ⟨t, ht⟩
      exact ⟨[], t, by simpa using ht⟩
    · rintro ⟨pre, post, hp⟩
      exact ⟨post, by cases pre <;> simp_all⟩
  | cons c cs ih =>
    simp only [listSub, Bool.or_eq_true, isPrefixOf_iff_append, ih]
    constructor
    · rintro (⟨t, ht⟩ | ⟨pre, post, hp⟩)
      · exact ⟨[], t, by simpa using ht⟩
      · exact ⟨c :: pre, post, by simp [hp]⟩
    · rintro ⟨pre, post, hp⟩
      cases pre with
      | nil => exact Or.inl ⟨post, by simpa using hp⟩
      | cons p ps =>
        right
        exact ⟨ps, post, (by simpa using hp : _ ∧ _).2⟩

/-- Substring containment is transitive. -/
theorem strContainsSub_trans {a b c : String}
    (h₁ : strContainsSub b a = true) (h₂ : strContainsSub c b = true) :
    strContainsSub c a = true := by
  unfold strContainsSub at *
  rw [listSub_iff_append] at *
  obtain ⟨p₁, q₁, e₁⟩ := h₁
  obtain ⟨p₂, q₂, e₂⟩ := h₂
  exact ⟨p₂ ++ p₁, q₁ ++ q₂, by simp [e₂, e₁]⟩

/-! ### A tiny regex engine

The Python helpers use `re.search` with patterns built solely from literal
text, character classes with `+` or `{3,6}` repetition, and a single
capture group.  We embed exactly this fragment: a pattern is a list of
elements, matching is leftmost (earliest start position wins) and each
repetition is greedy with backtracking, as in Python's `re`.  `reSearch`
returns the text of the (single) capture group of the leftmost match. -/

/-- One element of a pattern: a literal string, or a greedy repetition
`{lo,hi}` of a character class (`hi = none` means unbounded, i.e. `+` is
`{1,∞}`), optionally the capture group. -/
inductive RElem where
  | lit (s : List Char)
  | rep (p : Char → Bool) (lo : Nat) (hi : Option Nat) (cap : Bool)

/-- Try `f n`, `f (n-1)`, …, `f lo` in order, returning the first success. -/
def firstHit (f : Nat → Option (List Char)) (lo : Nat) : Nat → Option (List Char)
  | 0 => if lo = 0 then f 0 else Option.none
  | n + 1 =>
    if n + 1 < lo then Option.none
    else match f (n + 1) with
      | Option.some r => Option.some r
      | Option.none => firstHit f lo n

/-- Match the pattern elements at the start of `cs` (trailing text is
ignored, as `re.search` only needs a match somewhere); returns the capture
group's text on success.  Greedy repetitions backtrack from the longest
feasible length down to `lo`. -/
def matchElems (acc : Option (List Char)) : List RElem → List Char → Option (List Char)
  | [], _ => Option.some (acc.getD [])
  | .lit l :: es, cs =>
    if l.isPrefixOf cs then matchElems acc es (cs.drop l.length) else Option.none
  | .rep p lo hi cap :: es, cs =>
    let maxAvail := (cs.takeWhile p).length
    let maxN := match hi with | Option.some h => min h maxAvail | Option.none => maxAvail
    firstHit
      (fun n =>
        matchElems (if cap && acc.isNone then Option.some (cs.take n) else acc) es (cs.drop n))
      lo maxN

/-- Python `re.search(pattern, s)`, returning `group(1)`: scan start
positions left to right, first position admitting a match wins. -/
def reSearch (es : List RElem) : List Char → Option (List Char)
  | [] => matchElems Option.none es []
  | c :: cs =>
    match matchElems Option.none es (c :: cs) with
    | Option.some r => Option.some r
    | Option.none => reSearch es cs

/-- `re.search` on a string, yielding the captured group as a string. -/
def reSearchStr (es : List RElem) (s : String) : Option String :=
  (reSearch es s.data).map List.asString

/-- The character class `[a-zA-Z_]`. -/
def wordChar (c : Char) : Bool := c.isAlpha || c = '_'

/-- The character class `[A-Z]`. -/
def upperChar (c : Char) : Bool := c.isUpper

/-- The character class `\d`. -/
def digitChar (c : Char) : Bool := c.isDigit

/-! ### `tools/_util/path_parsing.py` -/

/-- Known assets (`parse_asset_from_path`). -/
def known_assets : List String :=
  ["AMZN", "CAT", "MSFT", "NVDA", "PG", "WMT",
   "EURUSD", "EURZAR", "GBPCNY", "GBPUSD", "GBPZAR", "USDZAR"]

/-- The three asset regex patterns, in order:
`/([A-Z]{3,6})_`, `([A-Z]{3,6})\.csv`, `([A-Z]{3,6})\.png`. -/
def assetPatterns : List (List RElem) :=
  [[.lit ['/'], .rep upperChar 3 (Option.some 6) true, .lit ['_']],
   [.rep upperChar 3 (Option.some 6) true, .lit ['.', 'c', 's', 'v']],
   [.rep upperChar 3 (Option.some 6) true, .lit ['.', 'p', 'n', 'g']]]

/-- Run a list of regex patterns in order, returning the first capture
(the Python `for pattern in patterns: ... return match.group(1)` loop). -/
def firstPatternHit (pats : List (List RElem)) (s : String) : Option String :=
  match pats with
  | [] => Option.none
  | p :: rest =>
    match reSearchStr p s with
    | Option.some g => Option.some g
    | Option.none => firstPatternHit rest s

/-- `parse_asset_from_path`: vocabulary substring match (case-insensitive),
else the regex fallbacks, else `None`. -/
def parse_asset_from_path (file_path : String) : Option String :=
  let path_lower := strLower file_path
  match known_assets.find? (fun a => strContainsSub path_lower (strLower a)) with
  | Option.some a => Option.some a
  | Option.none => firstPatternHit assetPatterns file_path

/-- Known models (`parse_model_from_path`), in the source's list order. -/
def known_models : List String :=
  ["sGARCH_norm", "sGARCH_sstd", "eGARCH", "gjrGARCH", "TGARCH",
   "NF_sGARCH_norm", "NF_sGARCH_sstd", "NF_eGARCH", "NF_gjrGARCH", "NF_TGARCH"]

/-- The three model regex patterns, in order:
`([a-zA-Z_]+)_[a-zA-Z_]+\.csv`, `([a-zA-Z_]+)_[a-zA-Z_]+\.png`,
`([a-zA-Z_]+)_results`. -/
def modelPatterns : List (List RElem) :=
  [[.rep wordChar 1 Option.none true, .lit ['_'], .rep wordChar 1 Option.none false,
    .lit ['.', 'c', 's', 'v']],
   [.rep wordChar 1 Option.none true, .lit ['_'], .rep wordChar 1 Option.none false,
    .lit ['.', 'p', 'n', 'g']],
   [.rep wordChar 1 Option.none true, .lit ['_', 'r', 'e', 's', 'u', 'l', 't', 's']]]

/-- `parse_model_from_path`: the `for model in known_models` loop returns the
first vocabulary entry (in list order) whose lowercase form occurs in the
lowercased path; else the regex fallbacks; else `None`. -/
def parse_model_from_path (file_path : String) : Option String :=
  let path_lower := strLower file_path
  match known_models.find? (fun m => strContainsSub path_lower (strLower m)) with
  | Option.some m => Option.some m
  | Option.none => firstPatternHit modelPatterns file_path

/-- `parse_split_type_from_path`. -/
def parse_split_type_from_path (file_path : String) : Option String :=
  let pl := strLower file_path
  if strContainsSub pl "tscv" || strContainsSub pl "ts_cv" ||
      strContainsSub pl "cross_validation" then Option.some "tscv"
  else if strContainsSub pl "chrono" || strContainsSub pl "chronological" then
    Option.some "chrono"
  else if strContainsSub pl "cv" && !strContainsSub pl "tscv" then Option.some "tscv"
  else Option.some "chrono"

/-- `fold` field: an `int` or the string `'all'`. -/
inductive FoldVal where
  | idx (n : ℕ)
  | all
deriving DecidableEq, Repr

/-- Digits captured by `(\d+)`, converted by Python `int`. -/
def digitsToNat (cs : List Char) : ℕ :=
  cs.foldl (fun acc c => acc * 10 + (c.toNat - '0'.toNat)) 0

/-- The three fold regex patterns, in order:
`fold_(\d+)`, `fold(\d+)`, `(\d+)_fold`. -/
def foldPatterns : List (List RElem) :=
  [[.lit ['f', 'o', 'l', 'd', '_'], .rep digitChar 1 Option.none true],
   [.lit ['f', 'o', 'l', 'd'], .rep digitChar 1 Option.none true],
   [.rep digitChar 1 Option.none true, .lit ['_', 'f', 'o', 'l', 'd']]]

/-- `parse_fold_from_path`: first matching pattern's digits as an `int`,
else `'all'`. -/
def parse_fold_from_path (file_path : String) : FoldVal :=
  match firstPatternHit foldPatterns file_path with
  | Option.some g => .idx (digitsToNat g.data)
  | Option.none => .all

/-- `parse_model_family`: `NF-GARCH` iff the name is truthy and contains
`NF`, `Flow`, or (case-insensitively) `nf`. -/
def parse_model_family (model_name : String) : String :=
  if model_name ≠ "" &&
      (strContainsSub model_name "NF" || strContainsSub model_name "Flow" ||
       strContainsSub (strLower model_name) "nf") then "NF-GARCH"
  else "GARCH"

/-- `parse_asset_type`: `FX` iff exactly 6 alphabetic characters, else
`Equity`; `Unknown` for a falsy name. -/
def parse_asset_type (asset_name : String) : String :=
  if asset_name ≠ "" then
    if asset_name.length = 6 && asset_name.data.all Char.isAlpha then "FX"
    else "Equity"
  else "Unknown"

/-- The metric-name normalization table (`normalize_metric_name`), in the
source dict's insertion order. -/
def normalizations : List (String × String) :=
  [("loglik", "LogLikelihood"), ("log_likelihood", "LogLikelihood"),
   ("loglikelihood", "LogLikelihood"), ("aic", "AIC"), ("bic", "BIC"),
   ("mse", "MSE"), ("mae", "MAE"), ("mape", "MAPE"), ("rmse", "RMSE"),
   ("r_squared", "R_Squared"), ("r2", "R_Squared"),
   ("correlation", "Correlation"), ("win_rate", "Win_Rate"),
   ("violation_rate", "Violation_Rate"), ("p_value", "P_Value"),
   ("qstat", "QStat"), ("archlm_pval", "ARCHLM_PValue")]

/-- `name.lower().replace('_', '').replace('-', '')`. -/
def stripKey (s : String) : String :=
  ⟨(strLower s).data.filter (fun c => !(c = '_' || c = '-'))⟩

/-- `normalize_metric_name`. -/
def normalize_metric_name (metric_name : String) : String :=
  match normalizations.find? (fun kv => stripKey kv.1 = stripKey metric_name) with
  | Option.some kv => kv.2
  | Option.none => metric_name

/-! ### Filesystem oracle and the file-content helpers -/

/-- The shape of a parsed JSON document, to the extent
`parse_metric_from_content` inspects it. -/
inductive JVal where
  | obj (keys : List String)
  | arr (elems : List JVal)
  | other
deriving Repr

/-- The filesystem/stdlib oracle: every operation whose outcome depends on
the world outside the two Python modules.  `Except`-valued operations may
raise; `fileExists` and `md5hex` cannot (matching `os.path.exists` and
`hashlib.md5(...).hexdigest()`). -/
structure FS where
  /-- Column names of `pd.read_csv(path, nrows=1)`. -/
  csvHeaderCols : String → Except String (List String)
  /-- `json.load(open(path))`. -/
  readJson : String → Except String JVal
  /-- `os.path.exists`. -/
  fileExists : String → Bool
  /-- `json.load` of a config file, abstracted to an opaque document string. -/
  parseJsonConfig : String → Except String String
  /-- `yaml.safe_load` of a config file, abstracted likewise. -/
  parseYamlConfig : String → Except String String
  /-- `json.dumps(config_data, sort_keys=True)`; may raise on
  non-serializable data. -/
  dumpsSorted : String → Except String String
  /-- `hashlib.md5(s.encode()).hexdigest()`. -/
  md5hex : String → String

/-- `parse_metric_from_content`: the whole body is a `try` whose handler
returns the still-empty `metrics` list. -/
def parse_metric_from_content (fs : FS) (file_path : String) :
    Except String (List String) :=
  match
    (if pyEndsWith file_path ".csv" then fs.csvHeaderCols file_path
     else if pyEndsWith file_path ".json" then do
       let j ← fs.readJson file_path
       match j with
       | .obj keys => pure keys
       | .arr (e :: _) =>
         match e with
         | .obj keys => pure keys
         | _ => pure []
       | .arr [] => pure []
       | .other => pure []
     else pure []) with
  | .ok m => .ok m
  | .error _ => .ok []

/-- `os.path.dirname` (POSIX): the head of the split at the last slash,
with trailing slashes stripped unless the head is all slashes. -/
def pyDirname (p : String) : String :=
  let cs := p.data
  match (List.range cs.length).filter (fun i => cs.getD i ' ' = '/') |>.getLast? with
  | Option.none => ""
  | Option.some i =>
    let head := cs.take (i + 1)
    if head.all (· = '/') then ⟨head⟩
    else ⟨(head.reverse.dropWhile (· = '/')).reverse⟩

/-- `os.path.join(dir, name)` for a relative `name`. -/
def pathJoin (d f : String) : String :=
  if d = "" then f else if pyEndsWith d "/" then d ++ f else d ++ "/" ++ f

/-- Candidate config filenames (`extract_config_hash`), in source order. -/
def config_files : List String :=
  ["config.json", "config.yaml", "config.yml",
   "params.json", "params.yaml", "params.yml",
   "settings.json", "settings.yaml", "settings.yml"]

/-- The `try` body for one candidate config file: parse (JSON by suffix,
else YAML), canonical dump, md5, truncate to 8 hex chars. -/
def configHashOf (fs : FS) (cf cpath : String) : Except String String := do
  let cd ← if pyEndsWith cf ".json" then fs.parseJsonConfig cpath
           else fs.parseYamlConfig cpath
  let s ← fs.dumpsSorted cd
  pure ((fs.md5hex s).take 8)

/-- The `for config_file in config_files` loop of `extract_config_hash`:
a parse failure is swallowed (`except Exception: continue`). -/
def configHashLoop (fs : FS) (file_dir : String) :
    List String → Except String (Option String)
  | [] => .ok Option.none
  | cf :: rest =>
    let cpath := pathJoin file_dir cf
    if fs.fileExists cpath then
      match configHashOf fs cf cpath with
      | .ok h => .ok (Option.some h)
      | .error _ => configHashLoop fs file_dir rest
    else configHashLoop fs file_dir rest

/-- `extract_config_hash`. -/
def extract_config_hash (fs : FS) (file_path : String) :
    Except String (Option String) :=
  configHashLoop fs (pyDirname file_path) config_files

/-- The metadata dictionary built by `parse_file_metadata`. -/
structure Metadata where
  file_path : String
  asset : Option String
  model : Option String
  split_type : Option String
  fold : FoldVal
  metrics : List String
  config_hash : Option String
  model_family : Option String
  asset_type : Option String
deriving DecidableEq, Repr

/-- `parse_file_metadata`: assembles every field; the derived
`model_family`/`asset_type` are set only when the base field is truthy. -/
def parse_file_metadata (fs : FS) (file_path : String) :
    Except String Metadata := do
  let metrics ← parse_metric_from_content fs file_path
  let config_hash ← extract_config_hash fs file_path
  let asset := parse_asset_from_path file_path
  let model := parse_model_from_path file_path
  pure
    { file_path := file_path
      asset := asset
      model := model
      split_type := parse_split_type_from_path file_path
      fold := parse_fold_from_path file_path
      metrics := metrics
      config_hash := config_hash
      model_family :=
        match model with
        | Option.some m => if m ≠ "" then Option.some (parse_model_family m) else Option.none
        | Option.none => Option.none
      asset_type :=
        match asset with
        | Option.some a => if a ≠ "" then Option.some (parse_asset_type a) else Option.none
        | Option.none => Option.none }

/-! ### `tools/collect_results.py` — `ResultsCollector._process_dataframe`

A pandas DataFrame is a list of column names plus rows of cells aligned
with the columns (the default `RangeIndex` supplies the row indices).
`run_id` and `timestamp` are ambient process state (a clock read); they are
omitted from the record, as no claim concerns them. -/

structure DataFrame where
  cols : List String
  rows : List (List PyVal)
deriving DecidableEq, Repr

/-- Cell of `row` in the column named `c` (first occurrence). -/
def rowVal (cols : List String) (row : List PyVal) (c : String) : PyVal :=
  match cols.findIdx? (· = c) with
  | Option.some i => row.getD i .none
  | Option.none => .none

/-- `_find_column`: the first of `possible_names` present among the
(cleaned) columns. -/
def find_column (cols : List String) (possible_names : List String) : Option String :=
  possible_names.find? (fun n => cols.contains n)

/-- `_get_value`: `None` column means `None`; otherwise the row's cell. -/
def get_value (cols : List String) (row : List PyVal) : Option String → PyVal
  | Option.none => .none
  | Option.some c => if cols.contains c then rowVal cols row c else .none

/-- `col.strip().replace(' ', '_')`. -/
def cleanCol (c : String) : String :=
  ⟨(pyStrip c).data.map (fun ch => if ch = ' ' then '_' else ch)⟩

/-- The metric-column keyword vocabulary (`_get_metric_columns`). -/
def metric_indicators : List String :=
  ["mse", "mae", "mape", "rmse", "aic", "bic", "loglik", "log_likelihood",
   "win_rate", "accuracy", "r_squared", "correlation", "p_value",
   "violation_rate", "qstat", "archlm", "convergence", "error", "loss",
   "avg_mse", "avg_mae", "avg_mape"]

/-- `_get_metric_columns`: a column is a metric if its lowercase name
contains an indicator, or (permissive fallback) if it is not one of the
known key columns. -/
def get_metric_columns (cols : List String) : List String :=
  cols.filter (fun col =>
    metric_indicators.any (fun ind => strContainsSub (strLower col) ind) ||
    !(["asset", "model", "Asset", "Model", "index", "Index"].contains col))

/-- `_infer_model_family` on a row-level model value.  As in Python, a
truthy non-string raises (`in` on a float is a `TypeError`). -/
def infer_model_family : PyVal → Except String String
  | .str s =>
    if s ≠ "" &&
        (strContainsSub s "NF" || strContainsSub s "Flow" ||
         strContainsSub (strLower s) "nf") then pure "NF-GARCH"
    else pure "GARCH"
  | .num q => if q ≠ 0 then .error "TypeError" else pure "GARCH"
  | .nan => .error "TypeError"
  | .none => pure "GARCH"

/-- Python `float()` of a cell: floats pass through; strings are parsed
as an optionally signed decimal numeral (exponent and `inf`/`nan` spellings
are not exercised by the data and are not modelled); `None` raises.
The NaN case is unreachable under the `pd.notna` guard at every call site. -/
def pyFloat : PyVal → Except String ℚ
  | .num q => pure q
  | .str s =>
    let t := pyStrip s
    let (sign, ds) : ℚ × List Char :=
      match t.data with
      | '-' :: rest => (-1, rest)
      | '+' :: rest => (1, rest)
      | rest => (1, rest)
    let intPart := ds.takeWhile Char.isDigit
    let rest := ds.drop intPart.length
    match rest with
    | [] =>
      if intPart = [] then .error "ValueError"
      else pure (sign * (digitsToNat intPart : ℚ))
    | '.' :: frac =>
      if frac.all Char.isDigit && (intPart ≠ [] || frac ≠ []) then
        pure (sign * ((digitsToNat intPart : ℚ) +
          (digitsToNat frac : ℚ) / (10 : ℚ) ^ frac.length))
      else .error "ValueError"
    | _ => .error "ValueError"
  | .nan => .error "unreachable: float(nan)"
  | .none => .error "TypeError"

/-- One emitted long-format record (`run_id`/`timestamp` omitted, see
`DataFrame`); `extras` holds the `original_<col>` passthrough columns. -/
structure ResultRecord where
  asset : PyVal
  model : PyVal
  model_family : String
  split_type : Option String
  fold : FoldVal
  metric : String
  value : Option ℚ
  source_file : String
  sheet_name : Option String
  row_index : ℕ
  asset_type : Option String
  config_hash : Option String
  extras : List (String × PyVal)
deriving DecidableEq, Repr

/-- The `for metric_col in metric_cols` loop body for one row: emit one
record per metric column whose cell is non-missing.  `model_family` is the
path-level override when the source file lies under the generated-residuals
directory, else the file-level metadata value when truthy, else row-level
inference. -/
def processMetrics (md : Metadata) (sheet : Option String) (cols : List String)
    (assetC modelC : Option String) (metricCols : List String) (idx : ℕ)
    (row : List PyVal) (asset model : PyVal) :
    List String → Except String (List ResultRecord)
  | [] => pure []
  | mc :: rest => do
    let c := rowVal cols row mc
    if pyNotNa c then do
      let metricName := normalize_metric_name mc
      let family ←
        if strContainsSub md.file_path "nf_generated_residuals" then pure "NF-GARCH"
        else match md.model_family with
          | Option.some s => if s ≠ "" then pure s else infer_model_family model
          | Option.none => infer_model_family model
      let v ← if pyNotNa c then (pyFloat c).map Option.some else pure Option.none
      let record1 : ResultRecord :=
        { asset := asset, model := model, model_family := family,
          split_type := md.split_type, fold := md.fold, metric := metricName,
          value := v, source_file := md.file_path, sheet_name := sheet,
          row_index := idx, asset_type := md.asset_type,
          config_hash := md.config_hash,
          extras :=
            (cols.filter (fun col =>
              !(Option.some col = assetC) && !(Option.some col = modelC) &&
              !metricCols.contains col)).map
              (fun col => ("original_" ++ col, rowVal cols row col)) }
      let others ← processMetrics md sheet cols assetC modelC metricCols idx row
        asset model rest
      pure (record1 :: others)
    else processMetrics md sheet cols assetC modelC metricCols idx row asset model rest

/-- The `for idx, row in df.iterrows()` loop: resolve `asset`/`model` from
the row, falling back to the file-level metadata, the file-path defaults
for summary files, and finally the `All_Assets`/`Summary` sentinels for
missing values; then process every metric column. -/
def processRows (md : Metadata) (sheet : Option String) (cols : List String)
    (assetC modelC : Option String) (metricCols : List String) :
    ℕ → List (List PyVal) → Except String (List ResultRecord)
  | _, [] => pure []
  | idx, row :: rest => do
    let asset0 := pyOr (get_value cols row assetC) (optToPy md.asset)
    let model0 := pyOr (get_value cols row modelC) (optToPy md.model)
    let (asset1, model1) :=
      if asset0 = .str "Unknown" && model0 = .str "Unknown" then
        if strContainsSub md.file_path "model_ranking" then
          (PyVal.str "All_Assets", PyVal.str "Summary")
        else if strContainsSub md.file_path "forecast_accuracy" then
          (PyVal.str "All_Assets", PyVal.str "Summary")
        else (PyVal.str "Unknown", PyVal.str "Unknown")
      else (asset0, model0)
    let asset2 := if pyIsNa asset1 || asset1 = .str "nan" then .str "All_Assets" else asset1
    let model2 := if pyIsNa model1 || model1 = .str "nan" then .str "Summary" else model1
    let recs ← processMetrics md sheet cols assetC modelC metricCols idx row
      asset2 model2 metricCols
    let restRecs ← processRows md sheet cols assetC modelC metricCols (idx + 1) rest
    pure (recs ++ restRecs)

/-- `_process_dataframe`. -/
def process_dataframe (df : DataFrame) (md : Metadata) (sheet : Option String) :
    Except String (List ResultRecord) :=
  if df.rows.isEmpty || df.cols.isEmpty then pure []
  else
    let cols := df.cols.map cleanCol
    let assetC := find_column cols ["asset", "Asset", "ASSET", "symbol", "Symbol"]
    let modelC := find_column cols ["model", "Model", "MODEL", "method", "Method"]
    let metricCols := get_metric_columns cols
    processRows md sheet cols assetC modelC metricCols 0 df.rows

/-! ### `tools/check_regression.py` — `RegressionChecker`

The checker's only state is `self.failures`, threaded explicitly.  The
`try` around each file check catches any exception raised mid-comparison;
since `self.failures` keeps the entries appended before the raise, the
error value carries the failure list at the moment of the raise. -/

/-- Python `repr` of a list of strings, e.g. `['A', 'B']`. -/
def pyListRepr (xs : List String) : String :=
  "[" ++ String.intercalate ", " (xs.map (fun s => "\x27" ++ s ++ "\x27")) ++ "]"

/-- Python `repr` of a `(rows, cols)` shape tuple. -/
def shapeRepr (df : DataFrame) : String :=
  "(" ++ toString df.rows.length ++ ", " ++ toString df.cols.length ++ ")"

/-- The numeric value of a cell for `compare_numeric`: floats pass through
and NaN/`None` are missing; a string reaches `abs()` and raises
`TypeError`, exactly when the code would.  The raise leaves the failure
list as it stood. -/
def asNumF (v : PyVal) (failures : List String) : Except (String × List String) ℚ :=
  match v with
  | .num q => .ok q
  | .str _ => .error ("TypeError", failures)
  | .nan => .error ("unreachable under isna", failures)
  | .none => .error ("unreachable under isna", failures)

/-- `RegressionChecker.compare_numeric`.  `1e-10` is the literal near-zero
threshold; scientific-notation display of the relative difference and
tolerance is abstracted to exact rendering. -/
def compare_numeric (tol : ℚ) (field_name : String) (current expected : PyVal)
    (failures : List String) : Except (String × List String) (Bool × List String) :=
  if pyIsNa current && pyIsNa expected then pure (true, failures)
  else if pyIsNa current || pyIsNa expected then
    pure (false, failures ++
      [field_name ++ ": NaN mismatch (current=" ++ pyStr current ++
       ", expected=" ++ pyStr expected ++ ")"])
  else do
    let e ← asNumF expected failures
    let c ← asNumF current failures
    if |e| < 1 / 10 ^ 10 then
      if |c - e| > tol then
        pure (false, failures ++
          [field_name ++ ": Near-zero mismatch (current=" ++ pyStr current ++
           ", expected=" ++ pyStr expected ++ ")"])
      else pure (true, failures)
    else
      if |c - e| / |e| > tol then
        pure (false, failures ++
          [field_name ++ ": Relative difference " ++ toString (|c - e| / |e|) ++
           " exceeds tolerance " ++ toString tol])
      else pure (true, failures)

/-- `RegressionChecker.compare_string`: exact equality of `str()` images. -/
def compare_string (current expected : PyVal) (field_name : String)
    (failures : List String) : Bool × List String :=
  if pyStr current ≠ pyStr expected then
    (false, failures ++
      [field_name ++ ": String mismatch (current=\x27" ++ pyStr current ++
       "\x27, expected=\x27" ++ pyStr expected ++ "\x27)"])
  else (true, failures)

/-- The cells of one column, in row order. -/
def colCells (df : DataFrame) (c : String) : List PyVal :=
  df.rows.map (fun row => rowVal df.cols row c)

/-- `pd.api.types.is_numeric_dtype` for a CSV/Excel-loaded column: pandas
infers a numeric dtype exactly when every cell parsed as a number or NaN. -/
def isNumericCol (df : DataFrame) (c : String) : Bool :=
  (colCells df c).all (fun v => match v with | .num _ => true | .nan => true | _ => false)

/-- The inner `for idx in current_df.index` loop over one column's aligned
cell pairs; the boolean result of each comparison is discarded, only the
failure list accumulates. -/
def checkColCells (tol : ℚ) (mkField : ℕ → String) (numeric : Bool) :
    ℕ → List (PyVal × PyVal) → List String →
    Except (String × List String) (List String)
  | _, [], fs => pure fs
  | i, (c, e) :: rest, fs => do
    let fs' ←
      if numeric then do
        let r ← compare_numeric tol (mkField i) c e fs
        pure r.2
      else pure (compare_string c e (mkField i) fs).2
    checkColCells tol mkField numeric (i + 1) rest fs'

/-- The outer `for col in current_df.columns` loop; `pre` is `""` for a CSV
and `"<sheet>."` inside an Excel sheet, giving the `col[idx]` field names. -/
def checkCols (tol : ℚ) (pre : String) (cur exp : DataFrame) :
    List String → List String → Except (String × List String) (List String)
  | [], fs => pure fs
  | c :: rest, fs => do
    let fs' ← checkColCells tol (fun i => pre ++ c ++ "[" ++ toString i ++ "]")
      (isNumericCol cur c) 0 ((colCells cur c).zip (colCells exp c)) fs
    checkCols tol pre cur exp rest fs'

/-- The body of `check_csv_file` after the two reads: shape and column
checks abort with `return False`; otherwise every cell is compared and the
call returns `len(self.failures) == 0` (cumulative). -/
def check_csv_body (tol : ℚ) (cur exp : DataFrame) (fs : List String) :
    Except (String × List String) (Bool × List String) :=
  if (cur.rows.length, cur.cols.length) ≠ (exp.rows.length, exp.cols.length) then
    pure (false, fs ++
      ["Shape mismatch: current " ++ shapeRepr cur ++ " vs expected " ++ shapeRepr exp])
  else if cur.cols ≠ exp.cols then
    pure (false, fs ++
      ["Column mismatch: current " ++ pyListRepr cur.cols ++ " vs expected " ++
       pyListRepr exp.cols])
  else do
    let fs' ← checkCols tol "" cur exp cur.cols fs
    pure (fs'.isEmpty, fs')

/-- `check_csv_file`: the surrounding `try` converts any raise into an
`Error reading` failure and a `False` result. -/
def check_csv_file (tol : ℚ) (fname : String) (cur exp : DataFrame)
    (fs : List String) : Bool × List String :=
  match check_csv_body tol cur exp fs with
  | .ok r => r
  | .error (e, fsr) => (false, fsr ++ ["Error reading " ++ fname ++ ": " ++ e])

/-- An Excel workbook: named sheets in order. -/
def Workbook := List (String × DataFrame)

/-- `pd.read_excel(file, sheet_name=name)`; the sheet-name lists are
checked for equality first, so the lookup always succeeds when reached. -/
def lookupSheet (sheets : List (String × DataFrame)) (n : String) : DataFrame :=
  (sheets.lookup n).getD ⟨[], []⟩

/-- Per-sheet comparison inside `check_excel_file`: a shape or column
mismatch appends one failure and `continue`s; otherwise cells are compared. -/
def check_sheet (tol : ℚ) (name : String) (cdf edf : DataFrame) (fs : List String) :
    Except (String × List String) (List String) :=
  if (cdf.rows.length, cdf.cols.length) ≠ (edf.rows.length, edf.cols.length) then
    pure (fs ++
      ["Sheet \x27" ++ name ++ "\x27 shape mismatch: current " ++ shapeRepr cdf ++
       " vs expected " ++ shapeRepr edf])
  else if cdf.cols ≠ edf.cols then
    pure (fs ++ ["Sheet \x27" ++ name ++ "\x27 column mismatch"])
  else checkCols tol (name ++ ".") cdf edf cdf.cols fs

/-- The `for sheet_name in current_xl.sheet_names` loop. -/
def check_sheets (tol : ℚ) (expSheets : List (String × DataFrame)) :
    List (String × DataFrame) → List String →
    Except (String × List String) (List String)
  | [], fs => pure fs
  | (n, cdf) :: rest, fs => do
    let fs' ← check_sheet tol n cdf (lookupSheet expSheets n) fs
    check_sheets tol expSheets rest fs'

/-- The body of `check_excel_file`: a sheet-name list mismatch aborts with
`return False`; otherwise every sheet is visited and the call returns
`len(self.failures) == 0` (cumulative). -/
def check_excel_body (tol : ℚ) (cur exp : List (String × DataFrame))
    (fs : List String) : Except (String × List String) (Bool × List String) :=
  if cur.map Prod.fst ≠ exp.map Prod.fst then
    pure (false, fs ++
      ["Sheet names mismatch: current " ++ pyListRepr (cur.map Prod.fst) ++
       " vs expected " ++ pyListRepr (exp.map Prod.fst)])
  else do
    let fs' ← check_sheets tol exp cur fs
    pure (fs'.isEmpty, fs')

/-- `check_excel_file`, with the surrounding `try` as for CSV files. -/
def check_excel_file (tol : ℚ) (fname : String) (cur exp : List (String × DataFrame))
    (fs : List String) : Bool × List String :=
  match check_excel_body tol cur exp fs with
  | .ok r => r
  | .error (e, fsr) => (false, fsr ++ ["Error reading " ++ fname ++ ": " ++ e])

/-! ### `tools/collect_results.py` — `create_summary_tables`

`master_df.groupby(keys)['value'].agg(['mean','std','min','max','count'])`:
pandas drops missing values inside each group's aggregate; `count` counts
the non-missing values, `std` uses the sample convention (`ddof=1`, missing
when fewer than two values).  pandas reports `std = sqrt(var)`; as the
square root is injective on the nonnegative rationals, the table is
recorded via the exact variance, keeping every statistic in exact
arithmetic.  The grouped table (its rows canonically ordered by the sorted
group keys) is determined by, and modelled as, the map from a group key to
its statistics — `none` for keys with no rows. -/

structure GroupStats where
  mean : Option ℚ
  /-- `std` squared: the sample variance (`ddof = 1`). -/
  var : Option ℚ
  minv : Option ℚ
  maxv : Option ℚ
  count : ℕ
deriving DecidableEq, Repr

/-- Fold a binary operation over a list, `none` on the empty list. -/
def foldOpt (g : ℚ → ℚ → ℚ) : List ℚ → Option ℚ :=
  List.foldr
    (fun x acc =>
      Option.some (match acc with | Option.none => x | Option.some m => g x m))
    Option.none

/-- The five aggregates of one group's non-missing values. -/
def statsOfValues (vs : List ℚ) : GroupStats :=
  let n := vs.length
  let mean? : Option ℚ := if n = 0 then Option.none else Option.some (vs.sum / n)
  { mean := mean?
    var :=
      if 2 ≤ n then
        match mean? with
        | Option.some m =>
          Option.some ((vs.map (fun x => (x - m) ^ 2)).sum / ((n : ℚ) - 1))
        | Option.none => Option.none
      else Option.none
    minv := foldOpt min vs
    maxv := foldOpt max vs
    count := n }

/-- `summary_by_model`: `groupby(['model', 'metric'])['value']`. -/
def summary_by_model (recs : List ResultRecord) :
    PyVal × String → Option GroupStats := fun k =>
  let grp := recs.filter (fun r => r.model == k.1 && r.metric == k.2)
  if grp.isEmpty then Option.none
  else Option.some (statsOfValues (grp.filterMap (·.value)))

/-- `summary_by_asset_model`: `groupby(['asset', 'model', 'metric'])['value']`. -/
def summary_by_asset_model (recs : List ResultRecord) :
    PyVal × PyVal × String → Option GroupStats := fun k =>
  let grp := recs.filter
    (fun r => r.asset == k.1 && r.model == k.2.1 && r.metric == k.2.2)
  if grp.isEmpty then Option.none
  else Option.some (statsOfValues (grp.filterMap (·.value)))

/-! ### Helper lemmas -/

theorem expure_bind {ε α β : Type} (a : α) (f : α → Except ε β) :
    (pure a : Except ε α) >>= f = f a := rfl

theorem exok_bind {ε α β : Type} (a : α) (f : α → Except ε β) :
    (Except.ok a : Except ε α) >>= f = f a := rfl

theorem exerror_bind {ε α β : Type} (e : ε) (f : α → Except ε β) :
    (Except.error e : Except ε α) >>= f = Except.error e := rfl

/-! ### Claim C1 — `compare_numeric` -/

/-- C1: for every tolerance, field name, prior failure list and pair of
numeric-or-NaN scalars, `compare_numeric` succeeds with no appended failure
when both are NaN; fails and appends a message naming the field and both
values when exactly one is NaN; and for two numbers succeeds (appending
nothing) exactly when the absolute difference is at most the tolerance
(near-zero baseline, `|expected| < 1e-10`) or the relative difference
`|current-expected|/|expected|` is at most the tolerance — equality with
the tolerance passes, only a strictly greater difference fails. -/
theorem c1_compare_numeric_spec (tol : ℚ) (field : String) (fs : List String)
    (c e : Option ℚ) :
    compare_numeric tol field (c.elim PyVal.nan PyVal.num) (e.elim PyVal.nan PyVal.num) fs =
      match c, e with
      | Option.none, Option.none => Except.ok (true, fs)
      | Option.some cq, Option.none =>
        Except.ok (false, fs ++
          [field ++ ": NaN mismatch (current=" ++ pyStr (.num cq) ++
           ", expected=" ++ pyStr .nan ++ ")"])
      | Option.none, Option.some eq' =>
        Except.ok (false, fs ++
          [field ++ ": NaN mismatch (current=" ++ pyStr .nan ++
           ", expected=" ++ pyStr (.num eq') ++ ")"])
      | Option.some cq, Option.some eq' =>
        if |eq'| < 1 / 10 ^ 10 then
          if |cq - eq'| ≤ tol then Except.ok (true, fs)
          else Except.ok (false, fs ++
            [field ++ ": Near-zero mismatch (current=" ++ pyStr (.num cq) ++
             ", expected=" ++ pyStr (.num eq') ++ ")"])
        else
          if |cq - eq'| / |eq'| ≤ tol then Except.ok (true, fs)
          else Except.ok (false, fs ++
            [field ++ ": Relative difference " ++ toString (|cq - eq'| / |eq'|) ++
             " exceeds tolerance " ++ toString tol]) := by
  cases c with
  | none =>
    cases e with
    | none => rfl
    | some eq' =>
      simp only [Option.elim, compare_numeric, pyIsNa, pyStr]
      rfl
  | some cq =>
    cases e with
    | none =>
      simp only [Option.elim, compare_numeric, pyIsNa, pyStr]
      rfl
    | some eq' =>
      simp only [Option.elim, compare_numeric, pyIsNa, asNumF, exok_bind,
        Bool.and_self, Bool.or_self, Bool.false_eq_true, if_false, ite_false]
      by_cases h1 : |eq'| < 1 / 10 ^ 10
      · rw [if_pos h1, if_pos h1]
        by_cases h2 : |cq - eq'| ≤ tol
        · rw [if_neg (not_lt.mpr h2), if_pos h2]; rfl
        · rw [if_pos (not_le.mp h2), if_neg h2]; rfl
      · rw [if_neg h1, if_neg h1]
        by_cases h2 : |cq - eq'| / |eq'| ≤ tol
        · rw [if_neg (not_lt.mpr h2), if_pos h2]; rfl
        · rw [if_pos (not_le.mp h2), if_neg h2]; rfl

/-! ### Claim C7 — `parse_split_type_from_path` -/

/-- The split-type cascade exactly as the claim words it: `tscv` keywords,
then `chrono` keywords, then a bare `cv`, with `chrono` as the final
default (never null).  Stated separately so the code's behavior can be
proved to refine the claim's wording. -/
def splitTypeClaim (p : String) : String :=
  let pl := strLower p
  if strContainsSub pl "tscv" || strContainsSub pl "ts_cv" ||
      strContainsSub pl "cross_validation" then "tscv"
  else if strContainsSub pl "chrono" || strContainsSub pl "chronological" then "chrono"
  else if strContainsSub pl "cv" then "tscv"
  else "chrono"

/-- C7: split-type inference is total and follows exactly the claimed
cascade — `tscv` for `tscv`/`ts_cv`/`cross_validation`, else `chrono` for
`chrono`/`chronological`, else `tscv` for a bare `cv`, else the `chrono`
default (never null). -/
theorem c7_split_type (p : String) :
    parse_split_type_from_path p = Option.some (splitTypeClaim p) := by
  unfold parse_split_type_from_path splitTypeClaim
  cases h1 : strContainsSub (strLower p) "tscv" <;>
  cases h2 : strContainsSub (strLower p) "ts_cv" <;>
  cases h3 : strContainsSub (strLower p) "cross_validation" <;>
  cases h4 : strContainsSub (strLower p) "chrono" <;>
  cases h5 : strContainsSub (strLower p) "chronological" <;>
  cases h6 : strContainsSub (strLower p) "cv" <;>
  simp [h1, h2, h3, h4, h5, h6]

/-! ### Claim C2 — `parse_model_from_path` vocabulary preference -/

/-- C2 counterexample: the path `NF_sGARCH_norm_results.csv` contains the
vocabulary entry `NF_sGARCH_norm`, yet the inferred model is the shorter
entry `sGARCH_norm` — the first match in the fixed vocabulary order wins,
not the longest. -/
theorem c2_counterexample :
    parse_model_from_path "NF_sGARCH_norm_results.csv" = Option.some "sGARCH_norm" ∧
    (Option.some "sGARCH_norm" : Option String) ≠ Option.some "NF_sGARCH_norm" := by
  constructor
  · decide
  · decide

/-- C2 amended: the vocabulary scan returns the *first* matching entry in
the fixed list order, in which the base model names precede their
`NF_`-prefixed variants; hence every path containing `NF_sGARCH_norm`
(case-insensitively) infers the model `sGARCH_norm`, never the longer
`NF_`-prefixed entry.  The regex fallback still applies only when no
vocabulary entry matches, and the result is null when neither matches. -/
theorem c2_amended (p : String)
    (h : strContainsSub (strLower p) "nf_sgarch_norm" = true) :
    parse_model_from_path p = Option.some "sGARCH_norm" := by
  have hsub : strContainsSub (strLower p) "sgarch_norm" = true :=
    strContainsSub_trans (by decide) h
  have hfind :
      known_models.find? (fun m => strContainsSub (strLower p) (strLower m)) =
        Option.some "sGARCH_norm" := by
    unfold known_models
    rw [List.find?_cons_of_pos]
    show strContainsSub (strLower p) (strLower "sGARCH_norm") = true
    have hlow : strLower "sGARCH_norm" = "sgarch_norm" := by decide
    rw [hlow]
    exact hsub
  simp only [parse_model_from_path]
  rw [hfind]

/-- C2 amended witness. -/
theorem c2_amended_witness :
    strContainsSub (strLower "NF_sGARCH_norm_AMZN.csv") "nf_sgarch_norm" = true ∧
    parse_model_from_path "NF_sGARCH_norm_AMZN.csv" = Option.some "sGARCH_norm" :=
  ⟨by decide, c2_amended _ (by decide)⟩

/-! ### Claim C8 — totality of `parse_file_metadata` -/

theorem parse_metric_from_content_ok (fs : FS) (p : String) :
    ∃ m, parse_metric_from_content fs p = Except.ok m := by
  unfold parse_metric_from_content
  split
  · exact ⟨_, rfl⟩
  · exact ⟨[], rfl⟩

theorem configHashLoop_ok (fs : FS) (d : String) (l : List String) :
    ∃ o, configHashLoop fs d l = Except.ok o := by
  induction l with
  | nil => exact ⟨Option.none, rfl⟩
  | cons cf rest ih =>
    unfold configHashLoop
    dsimp only
    split
    · split
      · exact ⟨_, rfl⟩
      · exact ih
    · exact ih

/-- C8: metadata inference is total — for every filesystem/stdlib oracle
and every string input (including the empty string and paths with no
recognizable token) `parse_file_metadata` returns a complete metadata
value and never propagates an exception; in particular every exception
during config-hash extraction is swallowed (the loop yields a value, null
when nothing parses). -/
theorem c8_parse_file_metadata_total :
    (∀ (fs : FS) (p : String), ∃ m, parse_file_metadata fs p = Except.ok m) ∧
    (∀ (fs : FS) (p : String), ∃ o, extract_config_hash fs p = Except.ok o) := by
  constructor
  · intro fs p
    obtain ⟨m1, h1⟩ := parse_metric_from_content_ok fs p
    obtain ⟨o, h2⟩ := configHashLoop_ok fs (pyDirname p) config_files
    unfold parse_file_metadata extract_config_hash
    rw [h1, exok_bind, h2, exok_bind]
    exact ⟨_, rfl⟩
  · intro fs p
    exact configHashLoop_ok fs (pyDirname p) config_files

/-! ### Claims C4 and C6 — per-record invariants of `_process_dataframe` -/

/-- Any record emitted by the metric-column loop for a file under the
generated-residuals directory carries the forced `NF-GARCH` family. -/
theorem processMetrics_family_nf (md : Metadata) (sheet : Option String)
    (cols : List String) (assetC modelC : Option String) (metricCols : List String)
    (idx : ℕ) (row : List PyVal) (asset model : PyVal)
    (h : strContainsSub md.file_path "nf_generated_residuals" = true) :
    ∀ (l : List String) (recs : List ResultRecord),
      processMetrics md sheet cols assetC modelC metricCols idx row asset model l =
        Except.ok recs →
      ∀ r ∈ recs, r.model_family = "NF-GARCH" := by
  intro l
  induction l with
  | nil =>
    intro recs hr r hm
    simp only [processMetrics, pure] at hr
    cases hr
    simp at hm
  | cons mc rest ih =>
    intro recs hr r hm
    simp only [processMetrics] at hr
    rcases Bool.eq_false_or_eq_true (pyNotNa (rowVal cols row mc)) with hcna | hcna
    · simp only [hcna, h, eq_self_iff_true, if_true, ite_true, expure_bind] at hr
      cases hv : pyFloat (rowVal cols row mc) with
      | error e => rw [hv] at hr; simp [Except.map, exerror_bind] at hr
      | ok q =>
        rw [hv] at hr
        simp only [Except.map, exok_bind] at hr
        cases hrest : processMetrics md sheet cols assetC modelC metricCols idx row
            asset model rest with
        | error e => rw [hrest] at hr; simp [exerror_bind] at hr
        | ok others =>
          rw [hrest] at hr
          simp only [exok_bind, expure_bind, pure] at hr
          cases hr
          rcases List.mem_cons.mp hm with hhead | htail
          · subst hhead; rfl
          · exact ih others hrest r htail
    · simp only [hcna, Bool.false_eq_true, if_false, ite_false] at hr
      exact ih recs hr r hm

/-- Any record emitted by the metric-column loop has a present value:
the emission is guarded by `pd.notna`, and `float()` succeeded. -/
theorem processMetrics_value_isSome (md : Metadata) (sheet : Option String)
    (cols : List String) (assetC modelC : Option String) (metricCols : List String)
    (idx : ℕ) (row : List PyVal) (asset model : PyVal) :
    ∀ (l : List String) (recs : List ResultRecord),
      processMetrics md sheet cols assetC modelC metricCols idx row asset model l =
        Except.ok recs →
      ∀ r ∈ recs, r.value.isSome = true := by
  intro l
  induction l with
  | nil =>
    intro recs hr r hm
    simp only [processMetrics, pure] at hr
    cases hr
    simp at hm
  | cons mc rest ih =>
    intro recs hr r hm
    simp only [processMetrics] at hr
    rcases Bool.eq_false_or_eq_true (pyNotNa (rowVal cols row mc)) with hcna | hcna
    · simp only [hcna, eq_self_iff_true, if_true, ite_true] at hr
      rcases Bool.eq_false_or_eq_true
          (strContainsSub md.file_path "nf_generated_residuals") with hnf | hnf
      · simp only [hnf, eq_self_iff_true, if_true, ite_true, expure_bind] at hr
        cases hv : pyFloat (rowVal cols row mc) with
        | error e => rw [hv] at hr; simp [Except.map, exerror_bind] at hr
        | ok q =>
          rw [hv] at hr
          simp only [Except.map, exok_bind] at hr
          cases hrest : processMetrics md sheet cols assetC modelC metricCols idx row
              asset model rest with
          | error e => rw [hrest] at hr; simp [exerror_bind] at hr
          | ok others =>
            rw [hrest] at hr
            simp only [exok_bind, expure_bind, pure] at hr
            cases hr
            rcases List.mem_cons.mp hm with hhead | htail
            · subst hhead; rfl
            · exact ih others hrest r htail
      · simp only [hnf, Bool.false_eq_true, if_false, ite_false] at hr
        cases hmf : md.model_family with
        | some s =>
          simp only [hmf] at hr
          rcases eq_or_ne s "" with hs | hs
          · rw [if_neg (fun hne => hne hs)] at hr
            cases hif : infer_model_family model with
            | error e => rw [hif] at hr; simp [exerror_bind] at hr
            | ok fam =>
              rw [hif] at hr
              simp only [exok_bind] at hr
              cases hv : pyFloat (rowVal cols row mc) with
              | error e => rw [hv] at hr; simp [Except.map, exerror_bind] at hr
              | ok q =>
                rw [hv] at hr
                simp only [Except.map, exok_bind] at hr
                cases hrest : processMetrics md sheet cols assetC modelC metricCols idx row
                    asset model rest with
                | error e => rw [hrest] at hr; simp [exerror_bind] at hr
                | ok others =>
                  rw [hrest] at hr
                  simp only [exok_bind, expure_bind, pure] at hr
                  cases hr
                  rcases List.mem_cons.mp hm with hhead | htail
                  · subst hhead; rfl
                  · exact ih others hrest r htail
          · rw [if_pos hs] at hr
            simp only [expure_bind] at hr
            cases hv : pyFloat (rowVal cols row mc) with
            | error e => rw [hv] at hr; simp [Except.map, exerror_bind] at hr
            | ok q =>
              rw [hv] at hr
              simp only [Except.map, exok_bind] at hr
              cases hrest : processMetrics md sheet cols assetC modelC metricCols idx row
                  asset model rest with
              | error e => rw [hrest] at hr; simp [exerror_bind] at hr
              | ok others =>
                rw [hrest] at hr
                simp only [exok_bind, expure_bind, pure] at hr
                cases hr
                rcases List.mem_cons.mp hm with hhead | htail
                · subst hhead; rfl
                · exact ih others hrest r htail
        | none =>
          simp only [hmf] at hr
          cases hif : infer_model_family model with
          | error e => rw [hif] at hr; simp [exerror_bind] at hr
          | ok fam =>
            rw [hif] at hr
            simp only [exok_bind] at hr
            cases hv : pyFloat (rowVal cols row mc) with
            | error e => rw [hv] at hr; simp [Except.map, exerror_bind] at hr
            | ok q =>
              rw [hv] at hr
              simp only [Except.map, exok_bind] at hr
              cases hrest : processMetrics md sheet cols assetC modelC metricCols idx row
                  asset model rest with
              | error e => rw [hrest] at hr; simp [exerror_bind] at hr
              | ok others =>
                rw [hrest] at hr
                simp only [exok_bind, expure_bind, pure] at hr
                cases hr
                rcases List.mem_cons.mp hm with hhead | htail
                · subst hhead; rfl
                · exact ih others hrest r htail
    · simp only [hcna, Bool.false_eq_true, if_false, ite_false] at hr
      exact ih recs hr r hm

theorem exbind_eq_ok {ε α β : Type} {x : Except ε α} {f : α → Except ε β} {b : β} :
    (x >>= f) = Except.ok b ↔ ∃ a, x = Except.ok a ∧ f a = Except.ok b := by
  cases x with
  | ok a => simp [exok_bind]
  | error e => simp [exerror_bind]

/-- Lift `processMetrics_family_nf` over the row loop. -/
theorem processRows_family_nf (md : Metadata) (sheet : Option String)
    (cols : List String) (assetC modelC : Option String) (metricCols : List String)
    (h : strContainsSub md.file_path "nf_generated_residuals" = true) :
    ∀ (idx : ℕ) (rows : List (List PyVal)) (recs : List ResultRecord),
      processRows md sheet cols assetC modelC metricCols idx rows = Except.ok recs →
      ∀ r ∈ recs, r.model_family = "NF-GARCH" := by
  intro idx rows
  induction rows generalizing idx with
  | nil =>
    intro recs hr r hm
    simp only [processRows, pure] at hr
    cases hr
    simp at hm
  | cons row rest ih =>
    intro recs hr r hm
    simp only [processRows] at hr
    rw [exbind_eq_ok] at hr
    obtain ⟨recs1, h1, hr⟩ := hr
    rw [exbind_eq_ok] at hr
    obtain ⟨recs2, h2, hr⟩ := hr
    simp only [pure] at hr
    cases hr
    rcases List.mem_append.mp hm with hm1 | hm2
    · exact processMetrics_family_nf md sheet cols assetC modelC metricCols idx row
        _ _ h metricCols recs1 h1 r hm1
    · exact ih (idx + 1) recs2 h2 r hm2

/-- Lift `processMetrics_value_isSome` over the row loop. -/
theorem processRows_value_isSome (md : Metadata) (sheet : Option String)
    (cols : List String) (assetC modelC : Option String) (metricCols : List String) :
    ∀ (idx : ℕ) (rows : List (List PyVal)) (recs : List ResultRecord),
      processRows md sheet cols assetC modelC metricCols idx rows = Except.ok recs →
      ∀ r ∈ recs, r.value.isSome = true := by
  intro idx rows
  induction rows generalizing idx with
  | nil =>
    intro recs hr r hm
    simp only [processRows, pure] at hr
    cases hr
    simp at hm
  | cons row rest ih =>
    intro recs hr r hm
    simp only [processRows] at hr
    rw [exbind_eq_ok] at hr
    obtain ⟨recs1, h1, hr⟩ := hr
    rw [exbind_eq_ok] at hr
    obtain ⟨recs2, h2, hr⟩ := hr
    simp only [pure] at hr
    cases hr
    rcases List.mem_append.mp hm with hm1 | hm2
    · exact processMetrics_value_isSome md sheet cols assetC modelC metricCols idx row
        _ _ metricCols recs1 h1 r hm1
    · exact ih (idx + 1) recs2 h2 r hm2

/-- C4: every record emitted from a file whose path contains the
generated-residuals directory carries `model_family = "NF-GARCH"`, whatever
the row's model value — the path-level override wins over row-level
inference. -/
theorem c4_nf_path_override (df : DataFrame) (md : Metadata) (sheet : Option String)
    (recs : List ResultRecord) (r : ResultRecord)
    (h : strContainsSub md.file_path "nf_generated_residuals" = true)
    (hok : process_dataframe df md sheet = Except.ok recs) (hm : r ∈ recs) :
    r.model_family = "NF-GARCH" := by
  unfold process_dataframe at hok
  rcases Bool.eq_false_or_eq_true (df.rows.isEmpty || df.cols.isEmpty) with hemp | hemp
  · simp only [hemp, eq_self_iff_true, if_true, ite_true, pure] at hok
    cases hok
    simp at hm
  · simp only [hemp, Bool.false_eq_true, if_false, ite_false] at hok
    exact processRows_family_nf md sheet _ _ _ _ h 0 df.rows recs hok r hm

/-- C6: every emitted record carries a present (non-null) numeric value —
a missing metric cell yields no record at all. -/
theorem c6_value_nonnull (df : DataFrame) (md : Metadata) (sheet : Option String)
    (recs : List ResultRecord) (r : ResultRecord)
    (hok : process_dataframe df md sheet = Except.ok recs) (hm : r ∈ recs) :
    r.value.isSome = true := by
  unfold process_dataframe at hok
  rcases Bool.eq_false_or_eq_true (df.rows.isEmpty || df.cols.isEmpty) with hemp | hemp
  · simp only [hemp, eq_self_iff_true, if_true, ite_true, pure] at hok
    cases hok
    simp at hm
  · simp only [hemp, Bool.false_eq_true, if_false, ite_false] at hok
    exact processRows_value_isSome md sheet _ _ _ _ 0 df.rows recs hok r hm

instance exceptDecEq {ε α : Type} [DecidableEq ε] [DecidableEq α] :
    DecidableEq (Except ε α) := fun x y =>
  match x, y with
  | .ok a, .ok b =>
    if h : a = b then .isTrue (by rw [h]) else .isFalse (by intro hc; cases hc; exact h rfl)
  | .ok _, .error _ => .isFalse (by intro hc; cases hc)
  | .error _, .ok _ => .isFalse (by intro hc; cases hc)
  | .error e, .error f =>
    if h : e = f then .isTrue (by rw [h]) else .isFalse (by intro hc; cases hc; exact h rfl)

/-! ### Claim C3 — the round-trip record -/

/-- A filesystem oracle with no readable files: every read raises, nothing
exists.  Any concrete run of the collector on an isolated CSV path sees
exactly this oracle. -/
def emptyFS : FS :=
  { csvHeaderCols := fun _ => .error "io", readJson := fun _ => .error "io",
    fileExists := fun _ => false, parseJsonConfig := fun _ => .error "io",
    parseYamlConfig := fun _ => .error "io", dumpsSorted := fun _ => .error "io",
    md5hex := fun _ => "" }

/-- The metadata inferred for the source path `results/foo.csv` (a path
outside the generated-residuals root naming no known asset or model). -/
def md3 : Metadata :=
  { file_path := "results/foo.csv", asset := Option.none, model := Option.none,
    split_type := Option.some "chrono", fold := .all, metrics := [],
    config_hash := Option.none, model_family := Option.none, asset_type := Option.none }

/-- The claim's single-row table `{"Model": "sGARCH", "Asset": "AMZN", "MSE": 0.01}`. -/
def df3 : DataFrame :=
  { cols := ["Model", "Asset", "MSE"],
    rows := [[.str "sGARCH", .str "AMZN", .num (1 / 100)]] }

/-- The record actually produced for `df3` from `results/foo.csv`. -/
def c3rec : ResultRecord :=
  { asset := .str "AMZN", model := .str "sGARCH", model_family := "GARCH",
    split_type := Option.some "chrono", fold := .all, metric := "MSE",
    value := Option.some (1 / 100), source_file := "results/foo.csv",
    sheet_name := Option.none, row_index := 0, asset_type := Option.none,
    config_hash := Option.none, extras := [] }

/-- C3 counterexample: normalizing the claim's single-row CSV from the
source path `results/foo.csv` — a path outside the generated-residuals
root — produces exactly one record with `model = "sGARCH"`,
`asset = "AMZN"`, `metric = "MSE"`, `value = 0.01`,
`model_family = "GARCH"`, but `asset_type = null`, not `"Equity"`: the
record copies the file-level `asset_type` (derived from the path, which
names no asset) instead of recomputing it from the row's asset value. -/
theorem c3_counterexample :
    parse_file_metadata emptyFS "results/foo.csv" = Except.ok md3 ∧
    process_dataframe df3 md3 Option.none = Except.ok [c3rec] ∧
    c3rec.asset = .str "AMZN" ∧
    c3rec.asset_type = Option.none ∧
    c3rec.asset_type ≠ Option.some "Equity" :=
  ⟨rfl, rfl, rfl, rfl, by decide⟩

/-- C3 amended: for every file-level metadata whose path lies outside the
generated-residuals root and whose path-level model family is absent or
`GARCH`, normalizing the single-row CSV produces exactly one record with
`model = "sGARCH"`, `asset = "AMZN"`, `metric = "MSE"`, `value = 0.01` and
`model_family = "GARCH"`; but `asset_type` is copied from the file-level
metadata (a function of the path-derived asset, null when the path names
no asset), not recomputed from the row-level asset value. -/
theorem c3_amended (md : Metadata)
    (h1 : strContainsSub md.file_path "nf_generated_residuals" = false)
    (h2 : md.model_family = Option.none ∨ md.model_family = Option.some "GARCH") :
    process_dataframe df3 md Option.none = Except.ok
      [{ asset := .str "AMZN", model := .str "sGARCH", model_family := "GARCH",
         split_type := md.split_type, fold := md.fold, metric := "MSE",
         value := Option.some (1 / 100), source_file := md.file_path,
         sheet_name := Option.none, row_index := 0, asset_type := md.asset_type,
         config_hash := md.config_hash, extras := [] }] := by
  have step1 : process_dataframe df3 md Option.none =
      processMetrics md Option.none ["Model", "Asset", "MSE"] (Option.some "Asset")
        (Option.some "Model") ["MSE"] 0 [.str "sGARCH", .str "AMZN", .num (1 / 100)]
        (.str "AMZN") (.str "sGARCH") ["MSE"] >>= fun recs =>
        pure (recs ++ []) := rfl
  rw [step1]
  simp only [processMetrics]
  rcases h2 with hmf | hmf <;>
    simp only [h1, hmf, Bool.false_eq_true, if_false, ite_false] <;> rfl

/-- C3 amended witness. -/
theorem c3_amended_witness :
    strContainsSub md3.file_path "nf_generated_residuals" = false ∧
    (md3.model_family = Option.none ∨ md3.model_family = Option.some "GARCH") ∧
    process_dataframe df3 md3 Option.none = Except.ok
      [{ asset := .str "AMZN", model := .str "sGARCH", model_family := "GARCH",
         split_type := md3.split_type, fold := md3.fold, metric := "MSE",
         value := Option.some (1 / 100), source_file := md3.file_path,
         sheet_name := Option.none, row_index := 0, asset_type := md3.asset_type,
         config_hash := md3.config_hash, extras := [] }] :=
  ⟨by decide, Or.inl rfl, c3_amended md3 (by decide) (Or.inl rfl)⟩

/-! ### Witness inputs for claims C4 and C6 -/

/-- The same single-row table read from a file under the
generated-residuals directory. -/
def dfNF : DataFrame :=
  { cols := ["Model", "Asset", "MSE"],
    rows := [[.str "sGARCH", .str "AMZN", .num (1 / 100)]] }

/-- Metadata for a file under the generated-residuals root. -/
def mdNF : Metadata :=
  { file_path := "nf_generated_residuals/residuals_summary.csv",
    asset := Option.none, model := Option.none, split_type := Option.some "chrono",
    fold := .all, metrics := [], config_hash := Option.none,
    model_family := Option.none, asset_type := Option.none }

/-- The record produced: `model_family` is `NF-GARCH` although the row's
model is `sGARCH`. -/
def recNF : ResultRecord :=
  { asset := .str "AMZN", model := .str "sGARCH", model_family := "NF-GARCH",
    split_type := Option.some "chrono", fold := .all, metric := "MSE",
    value := Option.some (1 / 100),
    source_file := "nf_generated_residuals/residuals_summary.csv",
    sheet_name := Option.none, row_index := 0, asset_type := Option.none,
    config_hash := Option.none, extras := [] }

/-- C4 witness. -/
theorem c4_nf_path_override_witness :
    strContainsSub mdNF.file_path "nf_generated_residuals" = true ∧
    process_dataframe dfNF mdNF Option.none = Except.ok [recNF] ∧
    recNF ∈ [recNF] ∧ recNF.model_family = "NF-GARCH" :=
  ⟨by decide, rfl, List.Mem.head _,
   c4_nf_path_override dfNF mdNF Option.none [recNF] recNF (by decide) rfl
     (List.Mem.head _)⟩

/-- C6 witness. -/
theorem c6_value_nonnull_witness :
    process_dataframe df3 md3 Option.none = Except.ok [c3rec] ∧
    c3rec ∈ [c3rec] ∧ c3rec.value.isSome = true :=
  ⟨rfl, List.Mem.head _,
   c6_value_nonnull df3 md3 Option.none [c3rec] c3rec rfl (List.Mem.head _)⟩

/-! ### Failure-accumulation lemmas for the `RegressionChecker`

Every comparison step only ever appends to the failure list, and its
appended suffix does not depend on what was already accumulated. -/

theorem compare_numeric_append (tol : ℚ) (f : String) (c e : PyVal)
    (fs₀ fs : List String) :
    compare_numeric tol f c e (fs₀ ++ fs) =
      match compare_numeric tol f c e fs with
      | .ok (b, d) => .ok (b, fs₀ ++ d)
      | .error (m, d) => .error (m, fs₀ ++ d) := by
  cases c <;> cases e <;>
    simp only [compare_numeric, pyIsNa, asNumF, exok_bind, exerror_bind,
      Bool.and_self, Bool.or_self, Bool.and_false, Bool.false_and, Bool.and_true,
      Bool.true_and, Bool.or_false, Bool.false_or, Bool.or_true, Bool.true_or] <;>
    split_ifs <;> first | rfl | simp [List.append_assoc, pure, Except.pure]

theorem compare_string_append (c e : PyVal) (f : String) (fs₀ fs : List String) :
    compare_string c e f (fs₀ ++ fs) =
      ((compare_string c e f fs).1, fs₀ ++ (compare_string c e f fs).2) := by
  unfold compare_string
  split_ifs <;> first | rfl | simp [List.append_assoc]

theorem checkColCells_append (tol : ℚ) (mk : ℕ → String) (numeric : Bool) :
    ∀ (cells : List (PyVal × PyVal)) (i : ℕ) (fs₀ fs : List String),
      checkColCells tol mk numeric i cells (fs₀ ++ fs) =
        match checkColCells tol mk numeric i cells fs with
        | .ok d => .ok (fs₀ ++ d)
        | .error (m, d) => .error (m, fs₀ ++ d) := by
  intro cells
  induction cells with
  | nil => intro i fs₀ fs; rfl
  | cons ce rest ih =>
    intro i fs₀ fs
    obtain ⟨c, e⟩ := ce
    simp only [checkColCells]
    cases numeric with
    | true =>
      simp only [if_true, ite_true]
      rw [compare_numeric_append]
      cases hcn : compare_numeric tol (mk i) c e fs with
      | ok r =>
        obtain ⟨b, d⟩ := r
        simp only [exok_bind, Except.map]
        exact ih (i + 1) fs₀ d
      | error r =>
        obtain ⟨m, d⟩ := r
        simp only [exerror_bind, Except.map]
    | false =>
      simp only [Bool.false_eq_true, if_false, ite_false]
      rw [compare_string_append]
      simp only [expure_bind]
      exact ih (i + 1) fs₀ (compare_string c e (mk i) fs).2

theorem checkCols_append (tol : ℚ) (pre : String) (cur exp : DataFrame) :
    ∀ (cols : List String) (fs₀ fs : List String),
      checkCols tol pre cur exp cols (fs₀ ++ fs) =
        match checkCols tol pre cur exp cols fs with
        | .ok d => .ok (fs₀ ++ d)
        | .error (m, d) => .error (m, fs₀ ++ d) := by
  intro cols
  induction cols with
  | nil => intro fs₀ fs; rfl
  | cons c rest ih =>
    intro fs₀ fs
    simp only [checkCols]
    rw [checkColCells_append]
    cases hc : checkColCells tol (fun i => pre ++ c ++ "[" ++ toString i ++ "]")
        (isNumericCol cur c) 0 ((colCells cur c).zip (colCells exp c)) fs with
    | ok d =>
      simp only [exok_bind]
      exact ih fs₀ d
    | error r =>
      obtain ⟨m, d⟩ := r
      simp only [exerror_bind]

theorem check_sheet_append (tol : ℚ) (name : String) (cdf edf : DataFrame)
    (fs₀ fs : List String) :
    check_sheet tol name cdf edf (fs₀ ++ fs) =
      match check_sheet tol name cdf edf fs with
      | .ok d => .ok (fs₀ ++ d)
      | .error (m, d) => .error (m, fs₀ ++ d) := by
  unfold check_sheet
  split_ifs with h1 h2
  · simp only [expure_bind, List.append_assoc]; rfl
  · simp only [expure_bind, List.append_assoc]; rfl
  · exact checkCols_append tol (name ++ ".") cdf edf cdf.cols fs₀ fs

theorem check_sheets_append (tol : ℚ) (expSheets : List (String × DataFrame)) :
    ∀ (sheets : List (String × DataFrame)) (fs₀ fs : List String),
      check_sheets tol expSheets sheets (fs₀ ++ fs) =
        match check_sheets tol expSheets sheets fs with
        | .ok d => .ok (fs₀ ++ d)
        | .error (m, d) => .error (m, fs₀ ++ d) := by
  intro sheets
  induction sheets with
  | nil => intro fs₀ fs; rfl
  | cons s rest ih =>
    intro fs₀ fs
    obtain ⟨n, cdf⟩ := s
    simp only [check_sheets]
    rw [check_sheet_append]
    cases hs : check_sheet tol n cdf (lookupSheet expSheets n) fs with
    | ok d =>
      simp only [exok_bind]
      exact ih fs₀ d
    | error r =>
      obtain ⟨m, d⟩ := r
      simp only [exerror_bind]

/-! ### Claim C5 — shape mismatches and early aborts -/

/-- A 1×1 sheet. -/
def dfA : DataFrame := { cols := ["X"], rows := [[.str "a"]] }

/-- The same sheet with a differing cell. -/
def dfA2 : DataFrame := { cols := ["X"], rows := [[.str "b"]] }

/-- C5 counterexample: comparing a workbook whose sheet-name list differs
from the baseline's records exactly one failure (the sheet-name mismatch)
and aborts — sheet `A`, present and aligned in both workbooks, is never
compared, although comparing it alone would report a cell mismatch. -/
theorem c5_counterexample :
    check_excel_file 1 "metrics.xlsx" [("A", dfA)] [("A", dfA2), ("Z", dfA)] [] =
      (false, ["Sheet names mismatch: current [\x27A\x27] vs expected [\x27A\x27, \x27Z\x27]"]) ∧
    check_sheet 1 "A" dfA dfA2 [] =
      Except.ok ["A.X[0]: String mismatch (current=\x27a\x27, expected=\x27b\x27)"] ∧
    (["A.X[0]: String mismatch (current=\x27a\x27, expected=\x27b\x27)"] : List String) ≠ [] :=
  ⟨rfl, rfl, by decide⟩

/-- C5 amended: only the per-sheet loop inside an Excel comparison has the
claimed behavior — a sheet whose shapes differ contributes exactly one
failure and the loop continues with the remaining sheets, each sheet's
contribution being independent of what was already accumulated.  A CSV
shape or column-name mismatch, and an Excel sheet-name-list mismatch,
instead record one failure and abort that file's comparison immediately
(the per-directory loop still proceeds to other files). -/
theorem c5_amended :
    (∀ (tol : ℚ) (expL : List (String × DataFrame)) (name : String) (cdf : DataFrame)
        (rest : List (String × DataFrame)) (fs : List String),
      (cdf.rows.length, cdf.cols.length) ≠
        ((lookupSheet expL name).rows.length, (lookupSheet expL name).cols.length) →
      check_sheets tol expL ((name, cdf) :: rest) fs =
        check_sheets tol expL rest (fs ++
          ["Sheet \x27" ++ name ++ "\x27 shape mismatch: current " ++ shapeRepr cdf ++
           " vs expected " ++ shapeRepr (lookupSheet expL name)])) ∧
    (∀ (tol : ℚ) (expL sheets : List (String × DataFrame)) (fs : List String),
      check_sheets tol expL sheets fs =
        match check_sheets tol expL sheets [] with
        | .ok d => .ok (fs ++ d)
        | .error (m, d) => .error (m, fs ++ d)) := by
  constructor
  · intro tol expL name cdf rest fs h
    simp only [check_sheets, check_sheet]
    rw [if_pos h]
    rfl
  · intro tol expL sheets fs
    have := check_sheets_append tol expL sheets fs []
    rw [List.append_nil] at this
    exact this

/-- C5 amended witness: a shape-mismatched sheet appends its single
failure and the loop continues. -/
theorem c5_amended_witness :
    ((dfA2.rows.length, dfA2.cols.length) ≠
      ((lookupSheet [("A", dfA)] "B").rows.length,
       (lookupSheet [("A", dfA)] "B").cols.length)) ∧
    check_sheets 1 [("A", dfA)] [("B", dfA2)] ["prior"] =
      check_sheets 1 [("A", dfA)] [] (["prior"] ++
        ["Sheet \x27B\x27 shape mismatch: current " ++ shapeRepr dfA2 ++
         " vs expected " ++ shapeRepr (lookupSheet [("A", dfA)] "B")]) :=
  ⟨by decide, c5_amended.1 1 [("A", dfA)] "B" dfA2 [] ["prior"] (by decide)⟩

/-! ### Claim C10 — cumulative failures across file checks -/

theorem append_cons_isEmpty (l : List String) (a : String) (t : List String) :
    (l ++ a :: t).isEmpty = false := by
  cases l <;> rfl

/-- Both file checkers return the emptiness of the *cumulative* failure
list, which extends the incoming one. -/
theorem check_csv_file_cumulative (tol : ℚ) (fname : String) (cur exp : DataFrame)
    (fs : List String) :
    ∃ d, check_csv_file tol fname cur exp fs = ((fs ++ d).isEmpty, fs ++ d) := by
  unfold check_csv_file check_csv_body
  split_ifs with h1 h2
  · refine ⟨["Shape mismatch: current " ++ shapeRepr cur ++ " vs expected " ++
      shapeRepr exp], ?_⟩
    rw [append_cons_isEmpty]
    rfl
  · refine ⟨["Column mismatch: current " ++ pyListRepr cur.cols ++ " vs expected " ++
      pyListRepr exp.cols], ?_⟩
    rw [append_cons_isEmpty]
    rfl
  · have hap := checkCols_append tol "" cur exp cur.cols fs []
    rw [List.append_nil] at hap
    rw [hap]
    cases hc : checkCols tol "" cur exp cur.cols [] with
    | ok d => exact ⟨d, rfl⟩
    | error r =>
      obtain ⟨m, d⟩ := r
      refine ⟨d ++ ["Error reading " ++ fname ++ ": " ++ m], ?_⟩
      simp only [exerror_bind]
      rw [← List.append_assoc]
      rw [append_cons_isEmpty]

/-- The Excel checker likewise. -/
theorem check_excel_file_cumulative (tol : ℚ) (fname : String)
    (cur exp : List (String × DataFrame)) (fs : List String) :
    ∃ d, check_excel_file tol fname cur exp fs = ((fs ++ d).isEmpty, fs ++ d) := by
  unfold check_excel_file check_excel_body
  split_ifs with h1
  · refine ⟨["Sheet names mismatch: current " ++ pyListRepr (cur.map Prod.fst) ++
      " vs expected " ++ pyListRepr (exp.map Prod.fst)], ?_⟩
    rw [append_cons_isEmpty]
    rfl
  · have hap := check_sheets_append tol exp cur fs []
    rw [List.append_nil] at hap
    rw [hap]
    cases hc : check_sheets tol exp cur [] with
    | ok d => exact ⟨d, rfl⟩
    | error r =>
      obtain ⟨m, d⟩ := r
      refine ⟨d ++ ["Error reading " ++ fname ++ ": " ++ m], ?_⟩
      simp only [exerror_bind]
      rw [← List.append_assoc]
      rw [append_cons_isEmpty]

/-- C10: the failure list only ever grows across checks, each check
returns whether the *cumulative* list is empty, and hence once any prior
failure exists every subsequent `check_csv_file`/`check_excel_file` call
on the same checker returns `False` — even on a file identical to its
baseline. -/
theorem c10_cumulative_failures (tol : ℚ) (fname : String) (cur exp : DataFrame)
    (wcur wexp : List (String × DataFrame)) (fs : List String) (h : fs ≠ []) :
    ((check_csv_file tol fname cur exp fs).1 = false ∧
     ∃ d, (check_csv_file tol fname cur exp fs).2 = fs ++ d) ∧
    ((check_excel_file tol fname wcur wexp fs).1 = false ∧
     ∃ d, (check_excel_file tol fname wcur wexp fs).2 = fs ++ d) := by
  have hne : ∀ d : List String, (fs ++ d).isEmpty = false := by
    intro d
    cases hfs : fs with
    | nil => exact absurd hfs h
    | cons a t => rw [List.cons_append]; rfl
  obtain ⟨d1, h1⟩ := check_csv_file_cumulative tol fname cur exp fs
  obtain ⟨d2, h2⟩ := check_excel_file_cumulative tol fname wcur wexp fs
  refine ⟨⟨?_, d1, ?_⟩, ⟨?_, d2, ?_⟩⟩
  · rw [h1]; exact hne d1
  · rw [h1]
  · rw [h2]; exact hne d2
  · rw [h2]

/-- C10 witness: on a prior failure, both checkers reject a file identical
to its baseline. -/
theorem c10_cumulative_failures_witness :
    (["prior"] ≠ ([] : List String)) ∧
    (((check_csv_file 1 "m.csv" dfA dfA ["prior"]).1 = false ∧
      ∃ d, (check_csv_file 1 "m.csv" dfA dfA ["prior"]).2 = ["prior"] ++ d) ∧
     ((check_excel_file 1 "m.csv" [("A", dfA)] [("A", dfA)] ["prior"]).1 = false ∧
      ∃ d, (check_excel_file 1 "m.csv" [("A", dfA)] [("A", dfA)] ["prior"]).2 =
        ["prior"] ++ d)) :=
  ⟨by decide,
   c10_cumulative_failures 1 "m.csv" dfA dfA [("A", dfA)] [("A", dfA)] ["prior"]
     (by decide)⟩

/-! ### Claim C9 — permutation invariance of the summary tables -/

theorem foldOpt_perm (g : ℚ → ℚ → ℚ) (hc : ∀ a b, g a b = g b a)
    (ha : ∀ a b c, g a (g b c) = g (g a b) c) {l₁ l₂ : List ℚ} (h : l₁.Perm l₂) :
    foldOpt g l₁ = foldOpt g l₂ := by
  unfold foldOpt
  apply h.foldr_eq'
  intro x _ y _ z
  cases z with
  | none => simp [hc x y]
  | some m =>
    simp only [Option.some.injEq]
    rw [ha y x m, ha x y m, hc y x]

theorem perm_isEmpty_eq {α : Type} {l₁ l₂ : List α} (h : l₁.Perm l₂) :
    l₁.isEmpty = l₂.isEmpty := by
  cases l₁ with
  | nil => rw [h.symm.eq_nil]
  | cons a t =>
    cases l₂ with
    | nil => exact absurd h.eq_nil (by simp)
    | cons b u => rfl

theorem statsOfValues_perm {l₁ l₂ : List ℚ} (h : l₁.Perm l₂) :
    statsOfValues l₁ = statsOfValues l₂ := by
  have hlen : l₁.length = l₂.length := h.length_eq
  have hsum : l₁.sum = l₂.sum := h.sum_eq
  have hsq : ∀ m : ℚ, (l₁.map (fun x => (x - m) ^ 2)).sum =
      (l₂.map (fun x => (x - m) ^ 2)).sum :=
    fun m => (h.map _).sum_eq
  have hmin : foldOpt min l₁ = foldOpt min l₂ :=
    foldOpt_perm min min_comm (fun a b c => (min_assoc a b c).symm) h
  have hmax : foldOpt max l₁ = foldOpt max l₂ :=
    foldOpt_perm max max_comm (fun a b c => (max_assoc a b c).symm) h
  unfold statsOfValues
  rw [hlen, hsum, hmin, hmax]
  simp only [hsq]

/-- C9: for every pair of record lists that are permutations of each
other, the by-model and by-asset-model summary tables (grouping by
`(model, metric)` and `(asset, model, metric)` with mean, sample variance
— pandas reports its square root as `std` —, min, max and count over each
group's non-missing values) coincide: aggregation is independent of the
order in which records are supplied. -/
theorem c9_summary_perm_invariant (l₁ l₂ : List ResultRecord) (h : l₁.Perm l₂) :
    summary_by_model l₁ = summary_by_model l₂ ∧
    summary_by_asset_model l₁ = summary_by_asset_model l₂ := by
  constructor
  · funext k
    have hf := h.filter (fun r => r.model == k.1 && r.metric == k.2)
    simp only [summary_by_model]
    rw [perm_isEmpty_eq hf, statsOfValues_perm (hf.filterMap (·.value))]
  · funext k
    have hf := h.filter
      (fun r => r.asset == k.1 && r.model == k.2.1 && r.metric == k.2.2)
    simp only [summary_by_asset_model]
    rw [perm_isEmpty_eq hf, statsOfValues_perm (hf.filterMap (·.value))]

/-- A record for the C9 witness. -/
def recW1 : ResultRecord :=
  { asset := .str "AMZN", model := .str "sGARCH", model_family := "GARCH",
    split_type := Option.some "chrono", fold := .all, metric := "MSE",
    value := Option.some 2, source_file := "a.csv", sheet_name := Option.none,
    row_index := 0, asset_type := Option.none, config_hash := Option.none,
    extras := [] }

/-- A second record for the C9 witness. -/
def recW2 : ResultRecord :=
  { asset := .str "NVDA", model := .str "eGARCH", model_family := "GARCH",
    split_type := Option.some "chrono", fold := .all, metric := "MSE",
    value := Option.some 3, source_file := "b.csv", sheet_name := Option.none,
    row_index := 1, asset_type := Option.none, config_hash := Option.none,
    extras := [] }

/-- C9 witness. -/
theorem c9_summary_perm_invariant_witness :
    ([recW1, recW2].Perm [recW2, recW1]) ∧
    (summary_by_model [recW1, recW2] = summary_by_model [recW2, recW1] ∧
     summary_by_asset_model [recW1, recW2] = summary_by_asset_model [recW2, recW1]) :=
  ⟨by decide, c9_summary_perm_invariant _ _ (by decide)⟩
